import Mathlib

/-!
Shallow embedding of `src/markjsinput.js` (class `MarkJSInput`), a
browser-canvas input adapter: a publisher/subscriber dispatch hub plus an
input normalizer (viewport→canvas coordinate mapping and gamepad
frame-to-frame diffing).

Modelling conventions:
* JS numbers are modelled as rationals (`ℚ`); `Math.round` is
  `jsRound q = ⌊q + 1/2⌋` (round half toward +∞, as in JS).
* A JS object reference is modelled by a `Subscriber` value with a
  numeric identity; `Array.prototype.includes` / `indexOf` + `splice(i,1)`
  become `List.contains` / `List.erase` (first occurrence).
* The gamepad poll `navigator.getGamepads()` is an explicit input
  `Option (List (Option Gamepad))` (null / array of possibly-null slots).
* Broadcasting to subscribers is represented by the list of facts emitted
  (`GPEvent` for gamepad) and, for the generic fan-out, by the list of
  `(subscriber id, arguments)` invocations in order.
-/

namespace MarkJSInput

/-- A subscriber object: reference identity `id` plus the set of named
handler methods it exposes (the JS truthiness test `if (subscriber.onX)`). -/
structure Subscriber where
  id : ℕ
  handlers : List String
deriving DecidableEq, Repr

/-- Embeds `subscribe` (lines 38–53): push the subscriber unless already present
(`includes` = reference-identity membership). -/
def subscribe (subscribers : List Subscriber) (subscriber : Subscriber) :
    List Subscriber :=
  if subscribers.contains subscriber then subscribers
  else subscribers ++ [subscriber]

/-- Embeds `unsubscribe` (lines 55–67): `indexOf` + `splice(index, 1)` removes the
first occurrence if present, otherwise does nothing — exactly `List.erase`. -/
def unsubscribe (subscribers : List Subscriber) (subscriber : Subscriber) :
    List Subscriber :=
  subscribers.erase subscriber

/-- The fan-out loop shared by every `_handleX` method (e.g. lines 169–178):
for each subscriber in order, invoke the handler named `eventName` iff the
subscriber exposes it. The result is the list of invocations
`(subscriber id, arguments)` in invocation order. -/
def broadcast {α : Type} (subscribers : List Subscriber) (eventName : String)
    (args : α) : List (ℕ × α) :=
  subscribers.filterMap fun subscriber =>
    if eventName ∈ subscriber.handlers then some (subscriber.id, args) else none

/-- Canvas bounding client rect (viewport pixels). -/
structure Rect where
  left : ℚ
  top : ℚ
  width : ℚ
  height : ℚ
deriving DecidableEq, Repr

/-- The canvas collaborator: rendered bounding box plus internal (logical)
pixel resolution (`canvas.width`, `canvas.height`, nonnegative integers). -/
structure Canvas where
  rect : Rect
  width : ℕ
  height : ℕ
deriving DecidableEq, Repr

/-- JS `Math.round`: round half toward positive infinity. -/
def jsRound (q : ℚ) : ℤ := ⌊q + 1/2⌋

/-- Embeds `getCanvasCoordinates` (lines 74–98): translate by the top-left of the rect,
multiply by the scale factors `internal / visual`, round, and clamp into
`[0, internalWidth] × [0, internalHeight]`. -/
def getCanvasCoordinates (canvas : Canvas) (clientX clientY : ℚ) : ℤ × ℤ :=
  let rect := canvas.rect
  let visualWidth := rect.width
  let visualHeight := rect.height
  let internalWidth : ℤ := canvas.width
  let internalHeight : ℤ := canvas.height
  let scaleX : ℚ := (internalWidth : ℚ) / visualWidth
  let scaleY : ℚ := (internalHeight : ℚ) / visualHeight
  let canvasX := (clientX - rect.left) * scaleX
  let canvasY := (clientY - rect.top) * scaleY
  (max 0 (min (jsRound canvasX) internalWidth),
   max 0 (min (jsRound canvasY) internalHeight))

/-- The reference definition the spec gives for the mapping (spec §4.2 and C1):
`x = clamp(round((clientX - rect.left) * internalWidth / renderedWidth), 0,
internalWidth)` and likewise for `y`. Written from the words of the spec, to be
compared with `getCanvasCoordinates`. -/
def mapToCanvasSpec (canvas : Canvas) (clientX clientY : ℚ) : ℤ × ℤ :=
  let internalWidth : ℤ := canvas.width
  let internalHeight : ℤ := canvas.height
  let x := jsRound ((clientX - canvas.rect.left) * (internalWidth : ℚ) /
    canvas.rect.width)
  let y := jsRound ((clientY - canvas.rect.top) * (internalHeight : ℚ) /
    canvas.rect.height)
  (max 0 (min x internalWidth), max 0 (min y internalHeight))

/-- A polled gamepad device: ordered button pressed-flags and axis values. -/
structure Gamepad where
  buttons : List Bool
  axes : List ℚ
deriving DecidableEq, Repr

/-- A gamepad fact broadcast by `updateGamepad`. -/
inductive GPEvent where
  | axis (leftStickX leftStickY rightStickX rightStickY deadZone : ℚ)
  | button (index : ℕ)
deriving DecidableEq, Repr

/-- Whether a gamepad fact is an `onGamepadAxis` fact. -/
def isAxisEvent : GPEvent → Bool
  | .axis _ _ _ _ _ => true
  | .button _ => false

/-- Mouse state written by `destroy` (line 122). -/
structure Mouse where
  x : ℚ
  y : ℚ
  buttons : ℕ
deriving DecidableEq, Repr

/-- The mutable instance state of `MarkJSInput` (constructor lines 8–36;
`this.mouse` is only ever written by `destroy`, so it is an `Option`). -/
structure InputState where
  keys : List (String × Bool)
  gamepad : Option Gamepad
  lastGamepadButtons : List Bool
  lastGamepadAxes : List ℚ
  subscribers : List Subscriber
  mouse : Option Mouse
deriving DecidableEq, Repr

/-- The state set up by the constructor (lines 12–18): empty key table, no
gamepad snapshot, no subscribers. -/
def initState : InputState :=
  { keys := []
    gamepad := none
    lastGamepadButtons := []
    lastGamepadAxes := []
    subscribers := []
    mouse := none }

/-- Embeds `destroy` (lines 106–126): clears subscribers, key table, mouse and the
whole gamepad snapshot (listener removal is host-side and not modelled). -/
def destroy (_st : InputState) : InputState :=
  { keys := []
    gamepad := none
    lastGamepadButtons := []
    lastGamepadAxes := []
    subscribers := []
    mouse := some { x := 0, y := 0, buttons := 0 } }

/-- JS-object update `this.keys[k] = v`: overwrite the entry if the key is
present, otherwise add it. -/
def setKey : List (String × Bool) → String → Bool → List (String × Bool)
  | [], k, v => [(k, v)]
  | (k', v') :: rest, k, v =>
    if k' = k then (k, v) :: rest else (k', v') :: setKey rest k v

/-- JS-object read `this.keys[k]`: `none` models an absent property. -/
def lookupKey : List (String × Bool) → String → Option Bool
  | [], _ => none
  | (k', v) :: rest, k => if k' = k then some v else lookupKey rest k

/-- Embeds `_handleKeyDown` (lines 145–154): set `keys[e.key] = true`, then notify
every subscriber exposing `onKeyDown` with the raw key fact. -/
def handleKeyDown (st : InputState) (key : String) :
    InputState × List (ℕ × String) :=
  ({ st with keys := setKey st.keys key true },
   broadcast st.subscribers "onKeyDown" key)

/-- Embeds `_handleKeyUp` (lines 157–166): set `keys[e.key] = false`, then notify
every subscriber exposing `onKeyUp`. -/
def handleKeyUp (st : InputState) (key : String) :
    InputState × List (ℕ × String) :=
  ({ st with keys := setKey st.keys key false },
   broadcast st.subscribers "onKeyUp" key)

/-- Embeds `_handleMouseMove` (lines 169–178): map the viewport coordinates and
fan the canvas-local pair out to subscribers exposing `onMouseMove`. -/
def handleMouseMove (st : InputState) (canvas : Canvas) (clientX clientY : ℚ) :
    List (ℕ × (ℤ × ℤ)) :=
  let pos := getCanvasCoordinates canvas clientX clientY
  broadcast st.subscribers "onMouseMove" pos

/-- The `for (let gp of gamepads) if (gp) { …; break }` selection (lines
303–304): the first non-null slot, if any. -/
def firstGamepad : List (Option Gamepad) → Option Gamepad
  | [] => none
  | some gp :: _ => some gp
  | none :: rest => firstGamepad rest

/-- Embeds `updateGamepad` (lines 299–355). Input `gamepads` models
`navigator.getGamepads()`: `none` when the host reports no gamepad support,
otherwise a list of possibly-empty slots. Returns the new instance state and
the list of gamepad facts broadcast, in emission order (the axis fact, when
triggered, precedes the button facts as in the source). `gp.axes[i] || 0`
and `lastGamepadButtons[i] || false` become `List.getD`. -/
def updateGamepad (st : InputState)
    (gamepads : Option (List (Option Gamepad))) :
    InputState × List GPEvent :=
  match gamepads with
  | none => (st, [])
  | some slots =>
    match firstGamepad slots with
    | none => (st, [])
    | some gp =>
      let deadZone : ℚ := 3/10
      let leftStickX := gp.axes.getD 0 0
      let leftStickY := gp.axes.getD 1 0
      let lastLeftStickX := st.lastGamepadAxes.getD 0 0
      let lastLeftStickY := st.lastGamepadAxes.getD 1 0
      let rightStickX := gp.axes.getD 2 0
      let rightStickY := gp.axes.getD 3 0
      let lastRightStickX := st.lastGamepadAxes.getD 2 0
      let lastRightStickY := st.lastGamepadAxes.getD 3 0
      let axisEvents : List GPEvent :=
        if |leftStickX - lastLeftStickX| > 1/10 ∨
           |leftStickY - lastLeftStickY| > 1/10 ∨
           |rightStickX - lastRightStickX| > 1/10 ∨
           |rightStickY - lastRightStickY| > 1/10 then
          [.axis leftStickX leftStickY rightStickX rightStickY deadZone]
        else []
      let buttonEvents : List GPEvent :=
        (List.range gp.buttons.length).filterMap fun i =>
          if gp.buttons.getD i false = true ∧
             st.lastGamepadButtons.getD i false = false then
            some (.button i)
          else none
      ({ st with
          gamepad := some gp
          lastGamepadAxes := gp.axes
          lastGamepadButtons := gp.buttons },
       axisEvents ++ buttonEvents)

/-- Embeds `update` (lines 101–103): delegates to `updateGamepad`. -/
def update (st : InputState) (gamepads : Option (List (Option Gamepad))) :
    InputState × List GPEvent :=
  updateGamepad st gamepads

/-- Test fixture: internal resolution 800×600 rendered at 400×300 (the scaling example of spec §8), top-left at viewport (10, 20). -/
def demoCanvas : Canvas :=
  { rect := { left := 10, top := 20, width := 400, height := 300 }
    width := 800
    height := 600 }

/-- Test fixture: a two-button gamepad with the left stick pushed halfway. -/
def demoGamepad : Gamepad :=
  { buttons := [true, false], axes := [1/2, 0, 0, 0] }

/-- Test fixture subscribers. -/
def demoSubA : Subscriber := { id := 0, handlers := ["onMouseMove", "onKeyDown"] }

def demoSubB : Subscriber := { id := 1, handlers := ["onKeyDown"] }

/-! ### Helper lemmas -/

theorem jsRound_nonpos {q : ℚ} (h : q ≤ 0) : jsRound q ≤ 0 := by
  have h1 : ⌊q + 1/2⌋ < 1 := Int.floor_lt.mpr (by push_cast; linarith)
  unfold jsRound
  omega

theorem le_jsRound {q : ℚ} {n : ℤ} (h : (n : ℚ) ≤ q) : n ≤ jsRound q :=
  Int.le_floor.mpr (by push_cast; linarith)

theorem clampAxis_spec (offset v : ℚ) (W : ℕ) (hv : 0 < v) :
    (0 ≤ max 0 (min (jsRound (offset * ((W : ℚ) / v))) (W : ℤ)) ∧
     max 0 (min (jsRound (offset * ((W : ℚ) / v))) (W : ℤ)) ≤ (W : ℤ)) ∧
    (offset < 0 → max 0 (min (jsRound (offset * ((W : ℚ) / v))) (W : ℤ)) = 0) ∧
    (v < offset → max 0 (min (jsRound (offset * ((W : ℚ) / v))) (W : ℤ)) = W) := by
  have hscale : (0 : ℚ) ≤ (W : ℚ) / v := div_nonneg (by positivity) hv.le
  refine ⟨⟨le_max_left _ _, max_le (Int.natCast_nonneg W) (min_le_right _ _)⟩, ?_, ?_⟩
  · intro hoff
    have hraw : offset * ((W : ℚ) / v) ≤ 0 :=
      mul_nonpos_iff.mpr (Or.inr ⟨hoff.le, hscale⟩)
    have hr : jsRound (offset * ((W : ℚ) / v)) ≤ 0 := jsRound_nonpos hraw
    exact max_eq_left (le_trans (min_le_left _ _) hr)
  · intro hoff
    have hvW : v * ((W : ℚ) / v) = (W : ℚ) := by
      field_simp
    have hraw : (W : ℚ) ≤ offset * ((W : ℚ) / v) := by
      calc (W : ℚ) = v * ((W : ℚ) / v) := hvW.symm
        _ ≤ offset * ((W : ℚ) / v) := mul_le_mul_of_nonneg_right hoff.le hscale
    have hr : (W : ℤ) ≤ jsRound (offset * ((W : ℚ) / v)) := le_jsRound (by push_cast; linarith)
    rw [min_eq_right hr]
    exact max_eq_right (Int.natCast_nonneg W)

/-! ### Claim theorems -/

/-- C1: `getCanvasCoordinates(clientX, clientY)` (with positive rendered
width and height) equals the reference definition
`clamp(round((client - rect.corner) * internal / rendered), 0, internal)`
on both axes; the result is always an integer pair in
`[0, internalWidth] × [0, internalHeight]`; and out-of-box inputs clamp to
the nearest boundary. -/
theorem getCanvasCoordinates_correct (canvas : Canvas) (clientX clientY : ℚ)
    (hw : 0 < canvas.rect.width) (hh : 0 < canvas.rect.height) :
    getCanvasCoordinates canvas clientX clientY =
      mapToCanvasSpec canvas clientX clientY ∧
    0 ≤ (getCanvasCoordinates canvas clientX clientY).1 ∧
    (getCanvasCoordinates canvas clientX clientY).1 ≤ (canvas.width : ℤ) ∧
    0 ≤ (getCanvasCoordinates canvas clientX clientY).2 ∧
    (getCanvasCoordinates canvas clientX clientY).2 ≤ (canvas.height : ℤ) ∧
    (clientX < canvas.rect.left →
      (getCanvasCoordinates canvas clientX clientY).1 = 0) ∧
    (canvas.rect.left + canvas.rect.width < clientX →
      (getCanvasCoordinates canvas clientX clientY).1 = (canvas.width : ℤ)) ∧
    (clientY < canvas.rect.top →
      (getCanvasCoordinates canvas clientX clientY).2 = 0) ∧
    (canvas.rect.top + canvas.rect.height < clientY →
      (getCanvasCoordinates canvas clientX clientY).2 = (canvas.height : ℤ)) := by
  have hx := clampAxis_spec (clientX - canvas.rect.left) canvas.rect.width canvas.width hw
  have hy := clampAxis_spec (clientY - canvas.rect.top) canvas.rect.height canvas.height hh
  refine ⟨?_, ?_, ?_, ?_, ?_, ?_, ?_, ?_, ?_⟩
  · simp [getCanvasCoordinates, mapToCanvasSpec, mul_div_assoc]
  · simpa [getCanvasCoordinates] using hx.1.1
  · simpa [getCanvasCoordinates] using hx.1.2
  · simpa [getCanvasCoordinates] using hy.1.1
  · simpa [getCanvasCoordinates] using hy.1.2
  · intro h
    simpa [getCanvasCoordinates] using hx.2.1 (by linarith)
  · intro h
    simpa [getCanvasCoordinates] using hx.2.2 (by linarith)
  · intro h
    simpa [getCanvasCoordinates] using hy.2.1 (by linarith)
  · intro h
    simpa [getCanvasCoordinates] using hy.2.2 (by linarith)

/-- Witness for C1: the demo canvas (internal 800×600, rendered 400×300 at
(10, 20)) at the concrete viewport point (110, 120). -/
theorem getCanvasCoordinates_correct_witness :
    getCanvasCoordinates demoCanvas 110 120 = mapToCanvasSpec demoCanvas 110 120 ∧
    0 ≤ (getCanvasCoordinates demoCanvas 110 120).1 ∧
    (getCanvasCoordinates demoCanvas 110 120).1 ≤ (demoCanvas.width : ℤ) ∧
    0 ≤ (getCanvasCoordinates demoCanvas 110 120).2 ∧
    (getCanvasCoordinates demoCanvas 110 120).2 ≤ (demoCanvas.height : ℤ) ∧
    ((110 : ℚ) < demoCanvas.rect.left →
      (getCanvasCoordinates demoCanvas 110 120).1 = 0) ∧
    (demoCanvas.rect.left + demoCanvas.rect.width < (110 : ℚ) →
      (getCanvasCoordinates demoCanvas 110 120).1 = (demoCanvas.width : ℤ)) ∧
    ((120 : ℚ) < demoCanvas.rect.top →
      (getCanvasCoordinates demoCanvas 110 120).2 = 0) ∧
    (demoCanvas.rect.top + demoCanvas.rect.height < (120 : ℚ) →
      (getCanvasCoordinates demoCanvas 110 120).2 = (demoCanvas.height : ℤ)) :=
  getCanvasCoordinates_correct demoCanvas 110 120 (by norm_num [demoCanvas])
    (by norm_num [demoCanvas])

theorem mem_filterMap_button {p : ℕ → Prop} [DecidablePred p] {l : List ℕ}
    (i : ℕ) :
    GPEvent.button i ∈
      (l.filterMap fun j => if p j then some (GPEvent.button j) else none) ↔
    i ∈ l ∧ p i := by
  rw [List.mem_filterMap]
  constructor
  · rintro ⟨a, hal, hfa⟩
    by_cases hpa : p a
    · rw [if_pos hpa] at hfa
      obtain rfl : a = i := by
        injection hfa with hfa
        injection hfa
      exact ⟨hal, hpa⟩
    · rw [if_neg hpa] at hfa
      cases hfa
  · rintro ⟨hil, hpi⟩
    exact ⟨i, hil, by rw [if_pos hpi]⟩

theorem count_filterMap_button {p : ℕ → Prop} [DecidablePred p] {l : List ℕ}
    (hl : l.Nodup) (i : ℕ) :
    ((l.filterMap fun j => if p j then some (GPEvent.button j) else none).count
      (GPEvent.button i)) = if i ∈ l ∧ p i then 1 else 0 := by
  induction l with
  | nil => simp
  | cons a l ih =>
    have ha : a ∉ l := (List.nodup_cons.mp hl).1
    have hl' : l.Nodup := (List.nodup_cons.mp hl).2
    rw [List.filterMap_cons]
    by_cases hpa : p a
    · rw [if_pos hpa]
      rw [List.count_cons, ih hl']
      by_cases hia : i = a
      · subst hia
        simp [ha, hpa]
      · simp [hia, Ne.symm hia]
    · rw [if_neg hpa, ih hl']
      by_cases hia : i = a
      · subst hia
        simp [hpa]
      · simp [hia]

theorem filter_axis_filterMap_button {p : ℕ → Prop} [DecidablePred p]
    (l : List ℕ) :
    (l.filterMap fun j =>
      if p j then some (GPEvent.button j) else none).filter isAxisEvent = [] := by
  rw [List.filter_eq_nil_iff]
  intro e he
  rw [List.mem_filterMap] at he
  obtain ⟨a, _, hfa⟩ := he
  by_cases hpa : p a
  · rw [if_pos hpa] at hfa
    injection hfa with hfa
    subst hfa
    simp [isAxisEvent]
  · rw [if_neg hpa] at hfa
    cases hfa

theorem firstGamepad_eq_none {slots : List (Option Gamepad)}
    (h : ∀ s ∈ slots, s = none) : firstGamepad slots = none := by
  induction slots with
  | nil => rfl
  | cons a l ih =>
    cases a with
    | none => exact ih fun s hs => h s (List.mem_cons_of_mem _ hs)
    | some gp => exact absurd (h (some gp) (List.mem_cons_self _ _)) (by simp)

/-- When the poll finds a first connected device `gp`, `updateGamepad`
reduces to the diffing step against the previous snapshot. -/
theorem updateGamepad_eq (st : InputState) (slots : List (Option Gamepad))
    (gp : Gamepad) (hgp : firstGamepad slots = some gp) :
    updateGamepad st (some slots) =
      ({ st with
          gamepad := some gp
          lastGamepadAxes := gp.axes
          lastGamepadButtons := gp.buttons },
       (if |gp.axes.getD 0 0 - st.lastGamepadAxes.getD 0 0| > 1/10 ∨
           |gp.axes.getD 1 0 - st.lastGamepadAxes.getD 1 0| > 1/10 ∨
           |gp.axes.getD 2 0 - st.lastGamepadAxes.getD 2 0| > 1/10 ∨
           |gp.axes.getD 3 0 - st.lastGamepadAxes.getD 3 0| > 1/10 then
          [GPEvent.axis (gp.axes.getD 0 0) (gp.axes.getD 1 0)
            (gp.axes.getD 2 0) (gp.axes.getD 3 0) (3/10)]
        else []) ++
       (List.range gp.buttons.length).filterMap fun i =>
         if gp.buttons.getD i false = true ∧
            st.lastGamepadButtons.getD i false = false then
           some (GPEvent.button i)
         else none) := by
  simp only [updateGamepad, hgp]

/-- C2: when a connected gamepad is found, `onGamepadButton(i)` is emitted
exactly once iff button `i` is pressed now and was not pressed (or absent)
in the previous snapshot; a second poll of the same device state emits no
button fact at all (edge-triggering: once per down-transition, never while
held, nothing on release). -/
theorem updateGamepad_button_edge (st : InputState)
    (slots : List (Option Gamepad)) (gp : Gamepad) (i : ℕ)
    (hgp : firstGamepad slots = some gp) :
    ((updateGamepad st (some slots)).2.count (GPEvent.button i) =
      if gp.buttons.getD i false = true ∧
         st.lastGamepadButtons.getD i false = false then 1 else 0) ∧
    ∀ j, GPEvent.button j ∉
      (updateGamepad (updateGamepad st (some slots)).1 (some slots)).2 := by
  constructor
  · rw [updateGamepad_eq st slots gp hgp]
    rw [List.count_append]
    have hax : (if |gp.axes.getD 0 0 - st.lastGamepadAxes.getD 0 0| > 1/10 ∨
           |gp.axes.getD 1 0 - st.lastGamepadAxes.getD 1 0| > 1/10 ∨
           |gp.axes.getD 2 0 - st.lastGamepadAxes.getD 2 0| > 1/10 ∨
           |gp.axes.getD 3 0 - st.lastGamepadAxes.getD 3 0| > 1/10 then
          [GPEvent.axis (gp.axes.getD 0 0) (gp.axes.getD 1 0)
            (gp.axes.getD 2 0) (gp.axes.getD 3 0) (3/10)]
        else []).count (GPEvent.button i) = 0 := by
      split <;> simp
    rw [hax, Nat.zero_add,
      count_filterMap_button (List.nodup_range _) i]
    simp only [List.mem_range]
    by_cases hp : gp.buttons.getD i false = true ∧
        st.lastGamepadButtons.getD i false = false
    · have hlen : i < gp.buttons.length := by
        by_contra hle
        have : gp.buttons.getD i false = false :=
          List.getD_eq_default _ _ (Nat.le_of_not_lt hle)
        rw [this] at hp
        exact absurd hp.1 (by simp)
      rw [if_pos ⟨hlen, hp⟩, if_pos hp]
    · rw [if_neg (fun h => hp h.2), if_neg hp]
  · intro j hmem
    have hst' : (updateGamepad st (some slots)).1.lastGamepadButtons =
        gp.buttons := by
      rw [updateGamepad_eq st slots gp hgp]
    rw [updateGamepad_eq _ slots gp hgp] at hmem
    rw [List.mem_append] at hmem
    rcases hmem with hmem | hmem
    · revert hmem
      split <;> simp
    · rw [mem_filterMap_button, hst'] at hmem
      exact absurd hmem.2.1 (by rw [hmem.2.2]; simp)

/-- Witness for C2: first poll of the demo gamepad (button 0 pressed,
empty previous snapshot). -/
theorem updateGamepad_button_edge_witness :
    ((updateGamepad initState (some [some demoGamepad])).2.count
        (GPEvent.button 0) =
      if demoGamepad.buttons.getD 0 false = true ∧
         initState.lastGamepadButtons.getD 0 false = false then 1 else 0) ∧
    ∀ j, GPEvent.button j ∉
      (updateGamepad (updateGamepad initState (some [some demoGamepad])).1
        (some [some demoGamepad])).2 :=
  updateGamepad_button_edge initState [some demoGamepad] demoGamepad 0 rfl

/-- C3: when a connected gamepad is found, the emitted axis facts are
exactly one `onGamepadAxis` fact — carrying the four current tracked axis
values and the deadzone constant 0.3 — iff some tracked axis moved by more
than 0.1 against the previous snapshot, and none otherwise; at most one
axis fact is emitted per tick, and the snapshot is then overwritten with
the current axis array. -/
theorem updateGamepad_axis_delta (st : InputState)
    (slots : List (Option Gamepad)) (gp : Gamepad)
    (hgp : firstGamepad slots = some gp) :
    ((updateGamepad st (some slots)).2.filter isAxisEvent =
      if |gp.axes.getD 0 0 - st.lastGamepadAxes.getD 0 0| > 1/10 ∨
         |gp.axes.getD 1 0 - st.lastGamepadAxes.getD 1 0| > 1/10 ∨
         |gp.axes.getD 2 0 - st.lastGamepadAxes.getD 2 0| > 1/10 ∨
         |gp.axes.getD 3 0 - st.lastGamepadAxes.getD 3 0| > 1/10 then
        [GPEvent.axis (gp.axes.getD 0 0) (gp.axes.getD 1 0)
          (gp.axes.getD 2 0) (gp.axes.getD 3 0) (3/10)]
      else []) ∧
    ((updateGamepad st (some slots)).2.filter isAxisEvent).length ≤ 1 ∧
    (updateGamepad st (some slots)).1.lastGamepadAxes = gp.axes := by
  rw [updateGamepad_eq st slots gp hgp]
  have hfilter : ((if |gp.axes.getD 0 0 - st.lastGamepadAxes.getD 0 0| > 1/10 ∨
         |gp.axes.getD 1 0 - st.lastGamepadAxes.getD 1 0| > 1/10 ∨
         |gp.axes.getD 2 0 - st.lastGamepadAxes.getD 2 0| > 1/10 ∨
         |gp.axes.getD 3 0 - st.lastGamepadAxes.getD 3 0| > 1/10 then
        [GPEvent.axis (gp.axes.getD 0 0) (gp.axes.getD 1 0)
          (gp.axes.getD 2 0) (gp.axes.getD 3 0) (3/10)]
      else []) ++
     (List.range gp.buttons.length).filterMap fun i =>
       if gp.buttons.getD i false = true ∧
          st.lastGamepadButtons.getD i false = false then
         some (GPEvent.button i)
       else none).filter isAxisEvent =
      if |gp.axes.getD 0 0 - st.lastGamepadAxes.getD 0 0| > 1/10 ∨
         |gp.axes.getD 1 0 - st.lastGamepadAxes.getD 1 0| > 1/10 ∨
         |gp.axes.getD 2 0 - st.lastGamepadAxes.getD 2 0| > 1/10 ∨
         |gp.axes.getD 3 0 - st.lastGamepadAxes.getD 3 0| > 1/10 then
        [GPEvent.axis (gp.axes.getD 0 0) (gp.axes.getD 1 0)
          (gp.axes.getD 2 0) (gp.axes.getD 3 0) (3/10)]
      else [] := by
    rw [List.filter_append, filter_axis_filterMap_button, List.append_nil]
    split <;> simp [isAxisEvent]
  refine ⟨hfilter, ?_, rfl⟩
  rw [hfilter]
  split <;> simp

/-- Witness for C3: first poll of the demo gamepad (left stick at 0.5, an
axis delta of 0.5 > 0.1 against the empty snapshot). -/
theorem updateGamepad_axis_delta_witness :
    ((updateGamepad initState (some [some demoGamepad])).2.filter isAxisEvent =
      if |demoGamepad.axes.getD 0 0 - initState.lastGamepadAxes.getD 0 0| > 1/10 ∨
         |demoGamepad.axes.getD 1 0 - initState.lastGamepadAxes.getD 1 0| > 1/10 ∨
         |demoGamepad.axes.getD 2 0 - initState.lastGamepadAxes.getD 2 0| > 1/10 ∨
         |demoGamepad.axes.getD 3 0 - initState.lastGamepadAxes.getD 3 0| > 1/10 then
        [GPEvent.axis (demoGamepad.axes.getD 0 0) (demoGamepad.axes.getD 1 0)
          (demoGamepad.axes.getD 2 0) (demoGamepad.axes.getD 3 0) (3/10)]
      else []) ∧
    ((updateGamepad initState (some [some demoGamepad])).2.filter
      isAxisEvent).length ≤ 1 ∧
    (updateGamepad initState
      (some [some demoGamepad])).1.lastGamepadAxes = demoGamepad.axes :=
  updateGamepad_axis_delta initState [some demoGamepad] demoGamepad rfl

theorem not_axis_mem_filterMap_button {p : ℕ → Prop} [DecidablePred p]
    {l : List ℕ} {e : GPEvent}
    (he : e ∈ l.filterMap fun j =>
      if p j then some (GPEvent.button j) else none) :
    isAxisEvent e = false := by
  rw [List.mem_filterMap] at he
  obtain ⟨a, _, hfa⟩ := he
  by_cases hpa : p a
  · rw [if_pos hpa] at hfa
    injection hfa with hfa
    subst hfa
    rfl
  · rw [if_neg hpa] at hfa
    cases hfa

/-- C10: on the first poll after construction or after `destroy` (both of
which leave empty previous snapshots), the missing previous values default
to zero/unpressed: an axis fact is emitted iff the current
absolute value of some tracked axis exceeds 0.1, and `onGamepadButton(i)` is emitted for exactly
the button indices currently reported pressed. -/
theorem updateGamepad_first_poll (st : InputState)
    (slots : List (Option Gamepad)) (gp : Gamepad)
    (haxes : st.lastGamepadAxes = []) (hbuttons : st.lastGamepadButtons = [])
    (hgp : firstGamepad slots = some gp) :
    ((∃ e ∈ (updateGamepad st (some slots)).2, isAxisEvent e = true) ↔
      |gp.axes.getD 0 0| > 1/10 ∨ |gp.axes.getD 1 0| > 1/10 ∨
      |gp.axes.getD 2 0| > 1/10 ∨ |gp.axes.getD 3 0| > 1/10) ∧
    ∀ i, GPEvent.button i ∈ (updateGamepad st (some slots)).2 ↔
      gp.buttons.getD i false = true := by
  constructor
  · rw [updateGamepad_eq st slots gp hgp, haxes, hbuttons]
    simp only [List.getD_nil, sub_zero]
    constructor
    · rintro ⟨e, he, hax⟩
      rcases List.mem_append.mp he with he | he
      · revert he
        split
        · intro _
          assumption
        · intro he
          cases he
      · rw [not_axis_mem_filterMap_button he] at hax
        cases hax
    · intro h
      refine ⟨GPEvent.axis (gp.axes.getD 0 0) (gp.axes.getD 1 0)
        (gp.axes.getD 2 0) (gp.axes.getD 3 0) (3/10),
        List.mem_append_left _ ?_, rfl⟩
      rw [if_pos h]
      exact List.mem_singleton_self _
  · intro i
    rw [updateGamepad_eq st slots gp hgp, hbuttons, List.mem_append]
    constructor
    · rintro (h | h)
      · revert h
        split <;> simp
      · rw [mem_filterMap_button] at h
        exact h.2.1
    · intro h
      refine Or.inr ?_
      rw [mem_filterMap_button]
      have hlen : i < gp.buttons.length := by
        by_contra hle
        rw [List.getD_eq_default _ _ (Nat.le_of_not_lt hle)] at h
        cases h
      exact ⟨List.mem_range.mpr hlen, h, List.getD_nil⟩

/-- Witness for C10: the demo gamepad polled from the freshly constructed
state. -/
theorem updateGamepad_first_poll_witness :
    ((∃ e ∈ (updateGamepad initState (some [some demoGamepad])).2,
        isAxisEvent e = true) ↔
      |demoGamepad.axes.getD 0 0| > 1/10 ∨ |demoGamepad.axes.getD 1 0| > 1/10 ∨
      |demoGamepad.axes.getD 2 0| > 1/10 ∨
      |demoGamepad.axes.getD 3 0| > 1/10) ∧
    ∀ i, GPEvent.button i ∈ (updateGamepad initState (some [some demoGamepad])).2 ↔
      demoGamepad.buttons.getD i false = true :=
  updateGamepad_first_poll initState [some demoGamepad] demoGamepad rfl rfl rfl

/-- C8: if the host gamepad poll returns nothing, or only empty device
slots, `update()` is a safe no-op: no fact is broadcast and the entire
instance state (key table, subscribers, gamepad snapshot) is unchanged. -/
theorem update_no_gamepad_noop (st : InputState)
    (gamepads : Option (List (Option Gamepad)))
    (h : gamepads = none ∨
      ∃ slots, gamepads = some slots ∧ ∀ s ∈ slots, s = none) :
    update st gamepads = (st, []) := by
  rcases h with rfl | ⟨slots, rfl, hall⟩
  · rfl
  · simp only [update, updateGamepad, firstGamepad_eq_none hall]

/-- Witness for C8: a poll returning two empty slots leaves the fresh state
untouched and emits nothing. -/
theorem update_no_gamepad_noop_witness :
    update initState (some [none, none]) = (initState, []) :=
  update_no_gamepad_noop initState (some [none, none])
    (Or.inr ⟨[none, none], rfl, by decide⟩)

theorem updateGamepad_mouse (st : InputState) (m : Option Mouse)
    (gamepads : Option (List (Option Gamepad))) :
    updateGamepad { st with mouse := m } gamepads =
      ({ (updateGamepad st gamepads).1 with mouse := m },
       (updateGamepad st gamepads).2) := by
  cases gamepads with
  | none => rfl
  | some slots =>
    cases hgp : firstGamepad slots with
    | none => simp only [updateGamepad, hgp]
    | some gp => simp only [updateGamepad, hgp]

/-- C6: `destroy` clears the subscriber list, the key-state table and the
whole gamepad snapshot; it is idempotent; and an `update()` after `destroy`
emits exactly the facts a first `update()` on a fresh instance would, and
produces the same state except for the cleared mouse record that `destroy`
alone writes. -/
theorem destroy_teardown (st : InputState) :
    (destroy st).subscribers = [] ∧
    (destroy st).keys = [] ∧
    (destroy st).gamepad = none ∧
    (destroy st).lastGamepadButtons = [] ∧
    (destroy st).lastGamepadAxes = [] ∧
    destroy (destroy st) = destroy st ∧
    ∀ gamepads,
      (update (destroy st) gamepads).2 = (update initState gamepads).2 ∧
      (update (destroy st) gamepads).1 =
        { (update initState gamepads).1 with
            mouse := some { x := 0, y := 0, buttons := 0 } } := by
  refine ⟨rfl, rfl, rfl, rfl, rfl, rfl, ?_⟩
  intro gamepads
  have hdestroy : destroy st =
      { initState with mouse := some { x := 0, y := 0, buttons := 0 } } := rfl
  have h := updateGamepad_mouse initState
    (some { x := 0, y := 0, buttons := 0 }) gamepads
  constructor
  · show (updateGamepad (destroy st) gamepads).2 =
      (updateGamepad initState gamepads).2
    rw [hdestroy, h]
  · show (updateGamepad (destroy st) gamepads).1 = _
    rw [hdestroy, h]
    rfl

theorem filterMap_ite_eq_map_filter {α β : Type} (p : α → Prop)
    [DecidablePred p] (g : α → β) (l : List α) :
    (l.filterMap fun a => if p a then some (g a) else none) =
      (l.filter fun a => p a).map g := by
  induction l with
  | nil => rfl
  | cons a l ih => by_cases hpa : p a <;> simp [hpa, ih]

theorem broadcast_count_eq_zero {α : Type} [DecidableEq α]
    (subscribers : List Subscriber) (eventName : String) (args : α)
    (n : ℕ) (b : α) (hn : n ∉ subscribers.map Subscriber.id) :
    (broadcast subscribers eventName args).count (n, b) = 0 := by
  rw [List.count_eq_zero]
  intro hmem
  rw [broadcast, List.mem_filterMap] at hmem
  obtain ⟨t, htmem, hft⟩ := hmem
  by_cases hh : eventName ∈ t.handlers
  · rw [if_pos hh] at hft
    injection hft with hft
    have hid : t.id = n := congrArg Prod.fst hft
    exact hn (hid ▸ List.mem_map_of_mem Subscriber.id htmem)
  · rw [if_neg hh] at hft
    cases hft

theorem broadcast_count {α : Type} [DecidableEq α]
    (subscribers : List Subscriber) (eventName : String) (args : α)
    (s : Subscriber) (hids : (subscribers.map Subscriber.id).Nodup)
    (hs : s ∈ subscribers) :
    (broadcast subscribers eventName args).count (s.id, args) =
      if eventName ∈ s.handlers then 1 else 0 := by
  induction subscribers with
  | nil => cases hs
  | cons t rest ih =>
    rw [List.map_cons, List.nodup_cons] at hids
    have hbc : broadcast (t :: rest) eventName args =
        (if eventName ∈ t.handlers then [(t.id, args)] else []) ++
          broadcast rest eventName args := by
      by_cases hh : eventName ∈ t.handlers <;>
        simp [broadcast, List.filterMap_cons, hh]
    rcases List.mem_cons.mp hs with rfl | hs'
    · rw [hbc, List.count_append,
        broadcast_count_eq_zero rest eventName args s.id args hids.1]
      by_cases hh : eventName ∈ s.handlers
      · rw [if_pos hh, if_pos hh]
        simp
      · rw [if_neg hh, if_neg hh]
        simp
    · have hne : ¬((s.id, args) = (t.id, args)) := by
        intro he
        have : s.id = t.id := congrArg Prod.fst he
        exact hids.1 (this ▸ List.mem_map_of_mem Subscriber.id hs')
      rw [hbc, List.count_append, ih hids.2 hs']
      by_cases hh : eventName ∈ t.handlers
      · rw [if_pos hh]
        simp [List.count_singleton', hne]
      · rw [if_neg hh]
        simp

/-- C4: `broadcast` invokes, for every currently subscribed subscriber
exposing the named handler, that handler exactly once, in registration
order, with identical arguments; subscribers lacking the handler are
skipped silently. The invocation list is exactly the registration-ordered
filter of the subscriber list. -/
theorem broadcast_fanout {α : Type} [DecidableEq α]
    (subscribers : List Subscriber) (eventName : String) (args : α)
    (hids : (subscribers.map Subscriber.id).Nodup) :
    broadcast subscribers eventName args =
      ((subscribers.filter fun s => eventName ∈ s.handlers).map
        fun s => (s.id, args)) ∧
    ∀ s ∈ subscribers,
      (eventName ∈ s.handlers →
        (broadcast subscribers eventName args).count (s.id, args) = 1) ∧
      (eventName ∉ s.handlers →
        (broadcast subscribers eventName args).count (s.id, args) = 0) := by
  refine ⟨filterMap_ite_eq_map_filter _ _ _, ?_⟩
  intro s hs
  constructor
  · intro hh
    rw [broadcast_count subscribers eventName args s hids hs, if_pos hh]
  · intro hh
    rw [broadcast_count subscribers eventName args s hids hs, if_neg hh]

/-- Witness for C4: two demo subscribers, of which only the first exposes
`onMouseMove`, receiving one mouse-move fact. -/
theorem broadcast_fanout_witness :
    broadcast [demoSubA, demoSubB] "onMouseMove" (7 : ℕ) =
      (([demoSubA, demoSubB].filter
        fun s => "onMouseMove" ∈ s.handlers).map fun s => (s.id, (7 : ℕ))) ∧
    ∀ s ∈ [demoSubA, demoSubB],
      ("onMouseMove" ∈ s.handlers →
        (broadcast [demoSubA, demoSubB] "onMouseMove" (7 : ℕ)).count
          (s.id, (7 : ℕ)) = 1) ∧
      ("onMouseMove" ∉ s.handlers →
        (broadcast [demoSubA, demoSubB] "onMouseMove" (7 : ℕ)).count
          (s.id, (7 : ℕ)) = 0) :=
  broadcast_fanout [demoSubA, demoSubB] "onMouseMove" 7 (by decide)

theorem subscribe_of_mem {l : List Subscriber} {s : Subscriber}
    (h : s ∈ l) : subscribe l s = l := by
  rw [subscribe, if_pos]
  exact List.elem_iff.mpr h

theorem subscribe_of_not_mem {l : List Subscriber} {s : Subscriber}
    (h : s ∉ l) : subscribe l s = l ++ [s] := by
  rw [subscribe, if_neg]
  intro hc
  exact h (List.elem_iff.mp hc)

theorem count_subscribe {l : List Subscriber} {s : Subscriber}
    (h : l.Nodup) : (subscribe l s).count s = 1 := by
  by_cases hm : s ∈ l
  · rw [subscribe_of_mem hm]
    exact List.count_eq_one_of_mem h hm
  · rw [subscribe_of_not_mem hm, List.count_append,
      List.count_eq_zero_of_not_mem hm, List.count_singleton_self]

/-- C5: re-subscribing an already-subscribed reference is a no-op whose
returned handle still unsubscribes it; one (or two) `subscribe` calls leave
exactly one registration, and one `unsubscribe` after a `subscribe` — or two
`unsubscribe` calls in a row, directly or via the handle — leave exactly
zero registrations. -/
theorem subscribe_unsubscribe_idem (subscribers : List Subscriber)
    (subscriber : Subscriber) (h : subscribers.Nodup) :
    (subscriber ∈ subscribers →
      subscribe subscribers subscriber = subscribers) ∧
    (subscribe subscribers subscriber).count subscriber = 1 ∧
    (subscribe (subscribe subscribers subscriber) subscriber).count
      subscriber = 1 ∧
    (unsubscribe (subscribe subscribers subscriber) subscriber).count
      subscriber = 0 ∧
    (unsubscribe (unsubscribe subscribers subscriber) subscriber).count
      subscriber = 0 := by
  have hc1 : (subscribe subscribers subscriber).count subscriber = 1 :=
    count_subscribe h
  have hmem : subscriber ∈ subscribe subscribers subscriber :=
    List.count_pos_iff.mp (by rw [hc1]; exact Nat.one_pos)
  refine ⟨fun hm => subscribe_of_mem hm, hc1, ?_, ?_, ?_⟩
  · rw [subscribe_of_mem hmem, hc1]
  · rw [unsubscribe, List.count_erase_self, hc1]
  · have hle : subscribers.count subscriber ≤ 1 :=
      List.nodup_iff_count_le_one.mp h subscriber
    rw [unsubscribe, unsubscribe, List.count_erase_self,
      List.count_erase_self]
    omega

/-- Witness for C5: the singleton subscriber list `[demoSubA]` with
`demoSubA` itself re-subscribed and unsubscribed. -/
theorem subscribe_unsubscribe_idem_witness :
    (demoSubA ∈ [demoSubA] → subscribe [demoSubA] demoSubA = [demoSubA]) ∧
    (subscribe [demoSubA] demoSubA).count demoSubA = 1 ∧
    (subscribe (subscribe [demoSubA] demoSubA) demoSubA).count demoSubA = 1 ∧
    (unsubscribe (subscribe [demoSubA] demoSubA) demoSubA).count demoSubA = 0 ∧
    (unsubscribe (unsubscribe [demoSubA] demoSubA) demoSubA).count
      demoSubA = 0 :=
  subscribe_unsubscribe_idem [demoSubA] demoSubA (by decide)

/-- C9: the no-duplicate invariant on the subscriber list: it holds for a
fresh instance and after `destroy`, and is preserved by `subscribe` and
`unsubscribe`; consequently a single `unsubscribe` — though it splices out
only one entry — removes every registration of that subscriber. -/
theorem subscribers_nodup_invariant (st : InputState)
    (subscribers : List Subscriber) (subscriber : Subscriber)
    (h : subscribers.Nodup) :
    initState.subscribers.Nodup ∧
    (subscribe subscribers subscriber).Nodup ∧
    (unsubscribe subscribers subscriber).Nodup ∧
    (destroy st).subscribers.Nodup ∧
    subscriber ∉ unsubscribe subscribers subscriber := by
  refine ⟨List.nodup_nil, ?_, ?_, List.nodup_nil, ?_⟩
  · by_cases hm : subscriber ∈ subscribers
    · rw [subscribe_of_mem hm]
      exact h
    · rw [subscribe_of_not_mem hm, ← List.concat_eq_append]
      exact List.Nodup.concat hm h
  · exact h.erase subscriber
  · exact h.not_mem_erase

/-- Witness for C9 on the singleton list `[demoSubA]`. -/
theorem subscribers_nodup_invariant_witness :
    initState.subscribers.Nodup ∧
    (subscribe [demoSubA] demoSubB).Nodup ∧
    (unsubscribe [demoSubA] demoSubB).Nodup ∧
    (destroy initState).subscribers.Nodup ∧
    demoSubB ∉ unsubscribe [demoSubA] demoSubB :=
  subscribers_nodup_invariant initState [demoSubA] demoSubB (by decide)

theorem lookupKey_setKey (ks : List (String × Bool)) (k k' : String)
    (v : Bool) :
    lookupKey (setKey ks k v) k' =
      if k' = k then some v else lookupKey ks k' := by
  induction ks with
  | nil =>
    by_cases h : k' = k
    · subst h
      simp [setKey, lookupKey]
    · simp [setKey, lookupKey, h, Ne.symm h]
  | cons a ks ih =>
    obtain ⟨ak, av⟩ := a
    rw [setKey]
    by_cases hak : ak = k
    · subst hak
      by_cases h : k' = ak
      · subst h
        simp [lookupKey]
      · simp [lookupKey, h, Ne.symm h]
    · rw [if_neg hak, lookupKey]
      by_cases h2 : ak = k'
      · subst h2
        rw [if_pos rfl, if_neg hak, lookupKey, if_pos rfl]
      · rw [if_neg h2, ih]
        by_cases h : k' = k
        · rw [if_pos h, if_pos h]
        · rw [if_neg h, if_neg h, lookupKey, if_neg h2]

/-- C7: a key-down sets the state-table entry of the key to `true` and always
broadcasts `onKeyDown` with the raw key fact — also when the key is already
down (OS key-repeat, no de-duplication); a key-up sets the entry to `false`
and broadcasts `onKeyUp`; neither handler ever removes an entry from the
table. -/
theorem handleKey_spec (st : InputState) (key other : String) :
    lookupKey (handleKeyDown st key).1.keys key = some true ∧
    (handleKeyDown st key).2 = broadcast st.subscribers "onKeyDown" key ∧
    lookupKey (handleKeyUp st key).1.keys key = some false ∧
    (handleKeyUp st key).2 = broadcast st.subscribers "onKeyUp" key ∧
    ((lookupKey st.keys other).isSome →
      (lookupKey (handleKeyDown st key).1.keys other).isSome ∧
      (lookupKey (handleKeyUp st key).1.keys other).isSome) := by
  refine ⟨?_, rfl, ?_, rfl, ?_⟩
  · show lookupKey (setKey st.keys key true) key = some true
    rw [lookupKey_setKey, if_pos rfl]
  · show lookupKey (setKey st.keys key false) key = some false
    rw [lookupKey_setKey, if_pos rfl]
  · intro hsome
    constructor <;>
      · show (lookupKey (setKey st.keys key _) other).isSome
        rw [lookupKey_setKey]
        by_cases h : other = key
        · rw [if_pos h]
          rfl
        · rw [if_neg h]
          exact hsome

/-- Witness for C7: a state already holding `ArrowLeft` down, receiving a
repeated `a` key-down/key-up. -/
theorem handleKey_spec_witness :
    lookupKey (handleKeyDown { initState with
      keys := [("ArrowLeft", true)] } "a").1.keys "a" = some true ∧
    (handleKeyDown { initState with
      keys := [("ArrowLeft", true)] } "a").2 =
      broadcast ({ initState with
        keys := [("ArrowLeft", true)] } : InputState).subscribers
        "onKeyDown" "a" ∧
    lookupKey (handleKeyUp { initState with
      keys := [("ArrowLeft", true)] } "a").1.keys "a" = some false ∧
    (handleKeyUp { initState with
      keys := [("ArrowLeft", true)] } "a").2 =
      broadcast ({ initState with
        keys := [("ArrowLeft", true)] } : InputState).subscribers
        "onKeyUp" "a" ∧
    ((lookupKey ({ initState with
        keys := [("ArrowLeft", true)] } : InputState).keys
        "ArrowLeft").isSome →
      (lookupKey (handleKeyDown { initState with
        keys := [("ArrowLeft", true)] } "a").1.keys "ArrowLeft").isSome ∧
      (lookupKey (handleKeyUp { initState with
        keys := [("ArrowLeft", true)] } "a").1.keys "ArrowLeft").isSome) :=
  handleKey_spec { initState with keys := [("ArrowLeft", true)] } "a"
    "ArrowLeft"

end MarkJSInput
